import Mathlib

/-!
Verification of the macOS setup script (`setup.py`) against its
natural-language specification.  The definitions below are a shallow
embedding of the script's pure control flow: step orchestration,
time estimation, command-runner outcome handling, configuration
loading and the idempotent text appends.
-/

set_option maxHeartbeats 1000000

/-! ## Step orchestrator (setup.py `main`, lines 961-973)

A step is a `(name, action)` pair.  An action is embedded by its
outcome: `Except.ok ()` when the Python callable returns normally,
`Except.error e` when it raises an exception whose `str` is `e`.
The loop appends the name to `successful_steps` on normal return and
`(name, str(e))` to `failed_steps` when the exception is caught. -/

abbrev StepAction : Type := Except String Unit

/-- `run_steps_aux steps successful_steps failed_steps` is the loop of
`main` (lines 964-973) with the two accumulator lists made explicit:
on `Except.ok` the step name is appended to the successful list, on
`Except.error e` the pair `(name, e)` is appended to the failed list,
and the loop always proceeds to the remaining steps. -/
def run_steps_aux : List (String × StepAction) → List String → List (String × String) →
    List String × List (String × String)
  | [], succ, fail => (succ, fail)
  | (name, act) :: rest, succ, fail =>
    match act with
    | .ok _ => run_steps_aux rest (succ ++ [name]) fail
    | .error e => run_steps_aux rest succ (fail ++ [(name, e)])

/-- The orchestrator loop of `main` started with the two empty lists
(`failed_steps = []`, `successful_steps = []`, lines 961-962). -/
def run_steps (steps : List (String × StepAction)) : List String × List (String × String) :=
  run_steps_aux steps [] []

/-- `main`'s loop catches every exception an action raises (line 971),
so `main` itself returns normally from the loop; the result is the
pair of outcome lists. -/
def orchestrate (steps : List (String × StepAction)) :
    Except String (List String × List (String × String)) :=
  .ok (run_steps steps)

/-- The `__main__` guard (lines 1012-1020): a normal return from
`main` means the process exits with code 0; an escaping fault or
interrupt exits with code 1. -/
def process_exit_code {α : Type} : Except String α → Nat
  | .ok _ => 0
  | .error _ => 1

/-- Whether an embedded action returned normally. -/
def action_succeeded : StepAction → Bool
  | .ok _ => true
  | .error _ => false

theorem run_steps_aux_nil (succ : List String) (fail : List (String × String)) :
    run_steps_aux [] succ fail = (succ, fail) := rfl

theorem run_steps_aux_ok (name : String) (u : Unit) (rest : List (String × StepAction))
    (succ : List String) (fail : List (String × String)) :
    run_steps_aux ((name, Except.ok u) :: rest) succ fail =
      run_steps_aux rest (succ ++ [name]) fail := rfl

theorem run_steps_aux_error (name e : String) (rest : List (String × StepAction))
    (succ : List String) (fail : List (String × String)) :
    run_steps_aux ((name, Except.error e) :: rest) succ fail =
      run_steps_aux rest succ (fail ++ [(name, e)]) := rfl

theorem run_steps_aux_eq (steps : List (String × StepAction))
    (succ : List String) (fail : List (String × String)) :
    run_steps_aux steps succ fail =
      (succ ++ (run_steps steps).1, fail ++ (run_steps steps).2) := by
  induction steps generalizing succ fail with
  | nil =>
    rw [run_steps, run_steps_aux_nil, run_steps_aux_nil]
    simp
  | cons s rest ih =>
    obtain ⟨name, act⟩ := s
    cases act with
    | ok u =>
      rw [run_steps, run_steps_aux_ok, run_steps_aux_ok, ih, ih]
      simp
    | error e =>
      rw [run_steps, run_steps_aux_error, run_steps_aux_error, ih, ih]
      simp

theorem run_steps_ok_cons (name : String) (rest : List (String × StepAction)) :
    run_steps ((name, Except.ok ()) :: rest) =
      (name :: (run_steps rest).1, (run_steps rest).2) := by
  rw [run_steps, run_steps_aux_ok, run_steps_aux_eq]
  simp

theorem run_steps_error_cons (name e : String) (rest : List (String × StepAction)) :
    run_steps ((name, Except.error e) :: rest) =
      ((run_steps rest).1, (name, e) :: (run_steps rest).2) := by
  rw [run_steps, run_steps_aux_error, run_steps_aux_eq]
  simp

theorem run_steps_append (a b : List (String × StepAction)) :
    run_steps (a ++ b) =
      ((run_steps a).1 ++ (run_steps b).1, (run_steps a).2 ++ (run_steps b).2) := by
  induction a with
  | nil => simp [run_steps, run_steps_aux_nil]
  | cons s rest ih =>
    obtain ⟨name, act⟩ := s
    cases act with
    | ok u =>
      cases u
      rw [List.cons_append, run_steps_ok_cons, run_steps_ok_cons, ih]
      simp
    | error e =>
      rw [List.cons_append, run_steps_error_cons, run_steps_error_cons, ih]
      simp

theorem run_steps_count_split (steps : List (String × StepAction)) (name : String) :
    ((run_steps steps).1.count name) + (((run_steps steps).2.map Prod.fst).count name) =
      ((steps.map Prod.fst).count name) := by
  induction steps with
  | nil => simp [run_steps, run_steps_aux_nil]
  | cons s rest ih =>
    obtain ⟨n, act⟩ := s
    cases act with
    | ok u =>
      cases u
      rw [run_steps_ok_cons]
      simp only [List.map_cons, List.count_cons]
      omega
    | error e =>
      rw [run_steps_error_cons]
      simp only [List.map_cons, List.count_cons]
      omega

/-- C1: for every step list run by the orchestrator loop, the
successful-steps list is exactly the names of the steps whose action
returned normally, in input order; the failed-steps list carries
exactly the names of the steps whose action raised, in input order;
and for every name the occurrences in the two lists add up to its
occurrences in the input list — each step is recorded exactly once,
never in both lists and never in neither. -/
theorem run_steps_outcome_log (steps : List (String × StepAction)) :
    (run_steps steps).1 = (steps.filter (fun s => action_succeeded s.2)).map Prod.fst ∧
    (run_steps steps).2.map Prod.fst =
      (steps.filter (fun s => !(action_succeeded s.2))).map Prod.fst ∧
    ∀ name : String,
      ((run_steps steps).1.count name) + (((run_steps steps).2.map Prod.fst).count name) =
        ((steps.map Prod.fst).count name) := by
  refine ⟨?_, ?_, fun name => run_steps_count_split steps name⟩
  · induction steps with
    | nil => simp [run_steps, run_steps_aux_nil]
    | cons s rest ih =>
      obtain ⟨n, act⟩ := s
      cases act with
      | ok u =>
        cases u
        rw [run_steps_ok_cons]
        simp [action_succeeded, ih]
      | error e =>
        rw [run_steps_error_cons]
        simp [action_succeeded, ih]
  · induction steps with
    | nil => simp [run_steps, run_steps_aux_nil]
    | cons s rest ih =>
      obtain ⟨n, act⟩ := s
      cases act with
      | ok u =>
        cases u
        rw [run_steps_ok_cons]
        simp [action_succeeded, ih]
      | error e =>
        rw [run_steps_error_cons]
        simp [action_succeeded, ih]

/-- C2: a raising step is caught and recorded as failed while every
subsequent step still runs (the outcome lists around the failing step
are exactly those of the surrounding sublists); a 3-step list whose
second action raises yields successes `[s1, s3]` and the single
failure `(s2, e)`; and since the loop catches every action exception,
`main` returns normally and the process exit code is 0 even when
steps failed. -/
theorem step_failures_are_isolated :
    (∀ (n1 n2 n3 e : String),
      run_steps [(n1, Except.ok ()), (n2, Except.error e), (n3, Except.ok ())] =
        ([n1, n3], [(n2, e)])) ∧
    (∀ (pre : List (String × StepAction)) (name e : String)
        (post : List (String × StepAction)),
      run_steps (pre ++ (name, Except.error e) :: post) =
        ((run_steps pre).1 ++ (run_steps post).1,
         (run_steps pre).2 ++ (name, e) :: (run_steps post).2)) ∧
    (∀ steps : List (String × StepAction), process_exit_code (orchestrate steps) = 0) := by
  refine ⟨?_, ?_, ?_⟩
  · intro n1 n2 n3 e
    rfl
  · intro pre name e post
    rw [run_steps_append, run_steps_error_cons]
  · intro steps
    rfl

/-! ## Substring matching

Python's `needle in haystack` membership test on strings, embedded
over the character lists of the strings. -/

/-- Whether `needle` occurs at the very start of `haystack`. -/
def matches_at : List Char → List Char → Bool
  | [], _ => true
  | _ :: _, [] => false
  | a :: as, b :: bs => a == b && matches_at as bs

/-- Whether `needle` occurs anywhere inside `haystack`. -/
def contains_seq : List Char → List Char → Bool
  | [], needle => needle.isEmpty
  | hs@(_ :: rest), needle => matches_at needle hs || contains_seq rest needle

/-- Python's `needle in haystack` on strings. -/
def strIn (needle haystack : String) : Bool :=
  contains_seq haystack.data needle.data

theorem matches_at_append (n h t : List Char) (hm : matches_at n h = true) :
    matches_at n (h ++ t) = true := by
  induction n generalizing h with
  | nil => rfl
  | cons a as ih =>
    cases h with
    | nil => simp [matches_at] at hm
    | cons b bs =>
      simp only [matches_at, Bool.and_eq_true] at hm
      simp only [List.cons_append, matches_at, Bool.and_eq_true]
      exact ⟨hm.1, ih bs hm.2⟩

theorem contains_seq_nil_needle (h : List Char) : contains_seq h [] = true := by
  cases h with
  | nil => rfl
  | cons a rest => simp [contains_seq, matches_at]

theorem contains_seq_append_left (n a b : List Char) (hm : contains_seq a n = true) :
    contains_seq (a ++ b) n = true := by
  induction a with
  | nil =>
    simp only [contains_seq, List.isEmpty_iff] at hm
    subst hm
    simpa using contains_seq_nil_needle b
  | cons x xs ih =>
    simp only [contains_seq, Bool.or_eq_true] at hm
    simp only [List.cons_append, contains_seq, Bool.or_eq_true]
    cases hm with
    | inl hma => exact Or.inl (matches_at_append n (x :: xs) b hma)
    | inr hmr => exact Or.inr (ih hmr)

theorem contains_seq_append_right (n a b : List Char) (hm : contains_seq b n = true) :
    contains_seq (a ++ b) n = true := by
  induction a with
  | nil => simpa using hm
  | cons x xs ih =>
    simp only [List.cons_append, contains_seq, Bool.or_eq_true]
    exact Or.inr ih

theorem strIn_append_left (m s t : String) (hm : strIn m s = true) :
    strIn m (s ++ t) = true := by
  have hdata : (s ++ t).data = s.data ++ t.data := rfl
  unfold strIn at hm ⊢
  rw [hdata]
  exact contains_seq_append_left m.data s.data t.data hm

theorem strIn_append_right (m s t : String) (hm : strIn m t = true) :
    strIn m (s ++ t) = true := by
  have hdata : (s ++ t).data = s.data ++ t.data := rfl
  unfold strIn at hm ⊢
  rw [hdata]
  exact contains_seq_append_right m.data s.data t.data hm

/-! ## Time estimator (setup.py `TimeEstimator`, lines 85-130) -/

/-- The `TimeEstimator.estimates` table (lines 88-95); the defaults
may be overridden by the `time_estimates` configuration section
(lines 98-99), so every statement is parametric in the table. -/
structure Estimates where
  gui_app : Nat
  cli_tool : Nat
  rust_install : Nat
  node_install : Nat
  oh_my_zsh : Nat
  task_config : Nat

/-- The default estimate table of `TimeEstimator.__init__`. -/
def default_estimates : Estimates :=
  { gui_app := 30, cli_tool := 10, rust_install := 120,
    node_install := 60, oh_my_zsh := 30, task_config := 5 }

/-- One iteration of the loop in `estimate_total_time` (lines
108-119): the running total plus the estimate selected for this task
name by the chain of `in` tests. -/
def estimate_step (est : Estimates) (total : Nat) (task_name : String) : Nat :=
  if strIn "GUI" task_name || strIn "Brew Packages" task_name then
    total + est.gui_app * 10
  else if strIn "Rust" task_name then total + est.rust_install
  else if strIn "Node" task_name then total + est.node_install
  else if strIn "Zsh" task_name then total + est.oh_my_zsh
  else total + est.task_config

/-- `TimeEstimator.estimate_total_time` (lines 105-120): fold the
per-task estimates over the task names starting from `total = 0`.
(The Python argument is a list of `(name, action)` pairs of which
only the names are inspected.) -/
def estimate_total_time (est : Estimates) (tasks : List String) : Nat :=
  tasks.foldl (estimate_step est) 0

/-- The task categories of the specification's estimate table. -/
inductive TaskCategory where
  | gui_app
  | rust_install
  | node_install
  | oh_my_zsh
  | generic

/-- Classification of a step name as the specification states it:
case-sensitive substring match against the known markers, first
matching category wins, unmatched names fall back to the generic
configuration category. -/
def classify_task (name : String) : TaskCategory :=
  if strIn "GUI" name || strIn "Brew Packages" name then .gui_app
  else if strIn "Rust" name then .rust_install
  else if strIn "Node" name then .node_install
  else if strIn "Zsh" name then .oh_my_zsh
  else .generic

/-- Per-category estimated seconds as the specification states them:
the table entry, with the GUI/package-batch category scaled by the
fixed ×10 multiplier. -/
def category_estimate (est : Estimates) : TaskCategory → Nat
  | .gui_app => est.gui_app * 10
  | .rust_install => est.rust_install
  | .node_install => est.node_install
  | .oh_my_zsh => est.oh_my_zsh
  | .generic => est.task_config

theorem estimate_step_eq (est : Estimates) (t : Nat) (n : String) :
    estimate_step est t n = t + category_estimate est (classify_task n) := by
  unfold estimate_step classify_task
  split_ifs <;> rfl

theorem estimate_foldl (est : Estimates) (tasks : List String) (a : Nat) :
    tasks.foldl (estimate_step est) a =
      a + (tasks.map (fun n => category_estimate est (classify_task n))).sum := by
  induction tasks generalizing a with
  | nil => simp
  | cons n rest ih =>
    simp only [List.foldl_cons, List.map_cons, List.sum_cons]
    rw [ih, estimate_step_eq]
    omega

/-- C4: `estimate_total_time` computes exactly the sum, over the step
names in order, of the per-category estimate obtained by classifying
each name with case-sensitive substring markers (first match wins,
generic fallback), where the GUI/package-batch category is the table
entry scaled by the fixed ×10 multiplier.  Parametric in the estimate
table, so it covers configuration overrides of the defaults. -/
theorem estimate_total_time_classifies (est : Estimates) (tasks : List String) :
    estimate_total_time est tasks =
      (tasks.map (fun n => category_estimate est (classify_task n))).sum := by
  unfold estimate_total_time
  simpa using estimate_foldl est tasks 0

/-! ## Time remaining (setup.py `TimeEstimator.get_time_remaining`, lines 122-130) -/

/-- The value returned by `get_time_remaining`: either the sentinel
string `"Calculating..."` or `str(timedelta(seconds=...))` for a
whole number of seconds. -/
inductive TimeRemaining where
  | calculating
  | duration (seconds : ℤ)
deriving DecidableEq

/-- Python's `int()` applied to a real number: truncation toward
zero. -/
def pyInt (q : ℚ) : ℤ := if 0 ≤ q then ⌊q⌋ else ⌈q⌉

/-- `TimeEstimator.get_time_remaining(current_step, total_steps)`
(lines 122-130).  The elapsed wall-clock seconds since the
estimator's start (`datetime.now() - self.start_time`, line 124) are
passed explicitly.  When `current_step > 0` the result is
`int(elapsed / current_step * (total_steps - current_step))` seconds;
otherwise the sentinel is returned. -/
def get_time_remaining (current_step total_steps : Nat) (elapsed : ℚ) : TimeRemaining :=
  if current_step > 0 then
    .duration (pyInt (elapsed / (current_step : ℚ) * ((total_steps : ℚ) - (current_step : ℚ))))
  else
    .calculating

/-- C3: with 0 completed steps `get_time_remaining` returns the
`"Calculating..."` sentinel whatever the totals and elapsed time;
with `completed > 0` it returns the duration
`(elapsed / completed) * (total - completed)` converted to whole
seconds by Python's `int()` (truncation toward zero); in particular
`completed = 2`, `total = 4`, `elapsed = 100` gives 100 seconds. -/
theorem get_time_remaining_spec :
    (∀ (total : Nat) (elapsed : ℚ), get_time_remaining 0 total elapsed = .calculating) ∧
    (∀ (completed total : Nat) (elapsed : ℚ), 0 < completed →
      get_time_remaining completed total elapsed =
        .duration (pyInt (elapsed / (completed : ℚ) *
          ((total : ℚ) - (completed : ℚ))))) ∧
    get_time_remaining 2 4 100 = .duration 100 := by
  refine ⟨fun total elapsed => rfl, fun completed total elapsed h => if_pos h, ?_⟩
  have harith : (100 : ℚ) / ((2 : Nat) : ℚ) * (((4 : Nat) : ℚ) - ((2 : Nat) : ℚ)) = 100 := by
    norm_num
  rw [get_time_remaining, if_pos (by norm_num), harith]
  norm_num [pyInt]

/-- Witness for C3 at a concrete input: three of five steps done
after 30 seconds yields `int(30 / 3 * (5 - 3)) = 20` seconds. -/
theorem get_time_remaining_spec_witness :
    get_time_remaining 3 5 30 = .duration 20 := by
  have h := get_time_remaining_spec.2.1 3 5 30 (by norm_num)
  rw [h]
  have harith : (30 : ℚ) / ((3 : Nat) : ℚ) * (((5 : Nat) : ℚ) - ((3 : Nat) : ℚ)) = 20 := by
    norm_num
  rw [harith]
  norm_num [pyInt]

/-! ## Command runner (setup.py `run_command`, lines 239-270) -/

/-- The behaviour of the external process dispatched by
`subprocess.run`: it either finishes with an exit code and output
streams before the timeout, or it exceeds the timeout. -/
inductive ProcBehavior where
  | finishes (returncode : Int) (stdout stderr : String)
  | hangs

/-- The exceptions `subprocess.run` can raise here:
`subprocess.TimeoutExpired` and, when `check` is set and the exit
code is non-zero, `subprocess.CalledProcessError` carrying the exit
code and the captured stderr (`None` when output was streamed rather
than captured). -/
inductive SubprocExn where
  | timeout_expired (timeout : Nat)
  | called_process_error (returncode : Int) (stderr : Option String)

/-- `subprocess.run(cmd, check=check, capture_output=capture,
timeout=timeout)` as invoked on lines 248 and 251: with `capture`
set the outputs are captured as strings, otherwise they are streamed
(`none`). -/
def subprocess_run (behavior : ProcBehavior) (check capture : Bool) (timeout : Nat) :
    Except SubprocExn (Int × Option String × Option String) :=
  match behavior with
  | .hangs => .error (.timeout_expired timeout)
  | .finishes rc out err =>
    if check && rc != 0 then
      .error (.called_process_error rc (if capture then some err else none))
    else
      .ok (rc, (if capture then some out else none), (if capture then some err else none))

/-- The value `run_command` hands back to its caller: a
`CompletedProcess` result, the ad hoc `MockResult` built on timeout
(lines 262-266), or the `CalledProcessError` object returned from the
handler (line 270). -/
inductive RunResult where
  | completed (returncode : Int) (stdout stderr : Option String)
  | timeout_mock (returncode : Int) (stdout stderr : String)
  | process_error (returncode : Int) (stderr : Option String)
deriving DecidableEq

/-- `run_command(cmd, shell, check, show_output, verbose, timeout)`
(lines 239-270).  Output is captured exactly when neither
`show_output` nor `verbose` is set (lines 247-251).  The
`try/except` turns `TimeoutExpired` into the `MockResult` with
`returncode = 1` and the descriptive message, and returns the
`CalledProcessError` object itself on `check` failure. -/
def run_command (behavior : ProcBehavior) (check show_output verbose : Bool)
    (timeout : Nat) : RunResult :=
  match subprocess_run behavior check (!(show_output || verbose)) timeout with
  | .ok (rc, out, err) => .completed rc out err
  | .error (.timeout_expired t) =>
      .timeout_mock 1 ("Command timed out after " ++ toString t ++ " seconds") ""
  | .error (.called_process_error rc err) => .process_error rc err

/-- C6: `run_command` never lets a raw `TimeoutExpired` or
`CalledProcessError` escape (its result type has no exception case):
on timeout it returns the synthetic `MockResult` with failing exit
status 1 and the descriptive message; on non-zero exit with `check`
enabled it returns the command-failure value carrying the original
exit status and the captured stderr; with `check` disabled the
non-zero completed result is returned for the caller to branch on. -/
theorem run_command_no_propagation :
    (∀ (check show_output verbose : Bool) (t : Nat),
      run_command .hangs check show_output verbose t =
        .timeout_mock 1 ("Command timed out after " ++ toString t ++ " seconds") "") ∧
    (∀ (rc : Int) (out err : String) (show_output verbose : Bool) (t : Nat), rc ≠ 0 →
      run_command (.finishes rc out err) true show_output verbose t =
        .process_error rc (if !(show_output || verbose) then some err else none)) ∧
    (∀ (rc : Int) (out err : String) (show_output verbose : Bool) (t : Nat),
      run_command (.finishes rc out err) false show_output verbose t =
        .completed rc (if !(show_output || verbose) then some out else none)
          (if !(show_output || verbose) then some err else none)) := by
  refine ⟨fun check show_output verbose t => rfl, ?_, ?_⟩
  · intro rc out err show_output verbose t h
    have hb : (true && rc != 0) = true := by simp [h]
    rw [run_command, subprocess_run, if_pos hb]
  · intro rc out err show_output verbose t
    rfl

/-- Witness for C6 at a concrete input: a captured command failing
with exit code 2 and stderr `"boom"` under `check=True` comes back as
the command-failure value with that code and stderr. -/
theorem run_command_no_propagation_witness :
    run_command (.finishes 2 "out" "boom") true false false 300 =
      .process_error 2 (some "boom") := by
  have h := run_command_no_propagation.2.1 2 "out" "boom" false false 300 (by norm_num)
  simpa using h

/-! ## Configuration data (JSON values)

`config_data` is the Python dict produced by `json.loads`; it is read
exclusively through `dict.get` / `in` and Python truthiness tests. -/

/-- A JSON value, the type of `config_data` and its sub-values. -/
inductive JValue where
  | null
  | bool (b : Bool)
  | num (n : Int)
  | str (s : String)
  | arr (elems : List JValue)
  | obj (fields : List (String × JValue))

/-- Key lookup in a JSON object's field list (Python dict keys are
unique, so first match is the match). -/
def jlookup : List (String × JValue) → String → Option JValue
  | [], _ => none
  | (k, v) :: rest, key => if k == key then some v else jlookup rest key

/-- `key in d` / `d[key]` on a JSON value: a lookup that succeeds
only on objects. -/
def jget (j : JValue) (key : String) : Option JValue :=
  match j with
  | .obj fields => jlookup fields key
  | _ => none

/-- Python's `d.get(key, default)`. -/
def py_get (j : JValue) (key : String) (default : JValue) : JValue :=
  (jget j key).getD default

/-- Python truthiness of a JSON value (`bool(v)`). -/
def truthy : JValue → Bool
  | .null => false
  | .bool b => b
  | .num n => n != 0
  | .str s => !s.isEmpty
  | .arr elems => !elems.isEmpty
  | .obj fields => !fields.isEmpty

/-! ## `load_config` (setup.py lines 197-207) -/

/-- What `load_config` sees of its `config_file` argument: whether
the path exists, its suffix, and the outcome of `json.loads` on its
content (`Except.error m` embeds a raised `json.JSONDecodeError`). -/
structure FileInfo where
  file_exists : Bool
  suffix : String
  parse : Except String JValue

/-- The errors `load_config` can raise: the `ValueError` for a
non-`.json` suffix (line 207) and a JSON decoding error escaping
`json.loads` (line 205). -/
inductive LoadConfigError where
  | unsupported_suffix (suffix : String)
  | json_decode (msg : String)

/-- `load_config(config_file)` (lines 197-207): `None` or a
nonexistent path yields the empty dict; an existing `.json` file is
parsed; any other suffix raises the `ValueError`. -/
def load_config (config_file : Option FileInfo) : Except LoadConfigError JValue :=
  match config_file with
  | none => .ok (.obj [])
  | some f =>
    if !f.file_exists then .ok (.obj [])
    else if f.suffix == ".json" then
      match f.parse with
      | .ok v => .ok v
      | .error m => .error (.json_decode m)
    else .error (.unsupported_suffix f.suffix)

/-- C10: `load_config` returns the empty configuration for `None`
and for any nonexistent file, raising nothing; and an
unsupported-suffix error can only arise from an existing file whose
suffix is not `.json` (and it reports exactly that suffix). -/
theorem load_config_missing_file :
    load_config none = .ok (.obj []) ∧
    (∀ f : FileInfo, f.file_exists = false → load_config (some f) = .ok (.obj [])) ∧
    (∀ (config_file : Option FileInfo) (s : String),
      load_config config_file = .error (.unsupported_suffix s) →
      ∃ f : FileInfo, config_file = some f ∧ f.file_exists = true ∧
        f.suffix ≠ ".json" ∧ s = f.suffix) := by
  refine ⟨rfl, ?_, ?_⟩
  · intro f h
    rw [load_config, h]
    rfl
  · intro config_file s h
    match config_file with
    | none => simp [load_config] at h
    | some f =>
      refine ⟨f, rfl, ?_⟩
      by_cases hex : f.file_exists
      · by_cases hsuf : f.suffix == ".json"
        · rw [load_config, hex] at h
          simp only [Bool.not_true, Bool.false_eq_true, if_false, hsuf, if_true] at h
          cases hp : f.parse with
          | ok v => rw [hp] at h; exact absurd h (by simp)
          | error m => rw [hp] at h; exact absurd h (by simp)
        · rw [load_config, hex] at h
          simp only [Bool.not_true, Bool.false_eq_true, if_false, hsuf, Bool.false_eq_true,
            if_false, Except.error.injEq, LoadConfigError.unsupported_suffix.injEq] at h
          exact ⟨hex, fun hj => (by simp [hj] at hsuf), h.symm⟩
      · rw [load_config, eq_false_of_ne_true hex] at h
        simp at h

/-- Witness for C10 at concrete inputs: a nonexistent `.yaml` path
loads as the empty configuration, and an existing `.yaml` file is
exactly the shape that produces the unsupported-suffix error. -/
theorem load_config_missing_file_witness :
    load_config (some ⟨false, ".yaml", .ok (.obj [])⟩) = .ok (.obj []) ∧
    (∃ f : FileInfo, (some (⟨true, ".yaml", .ok (.obj [])⟩ : FileInfo)) = some f ∧
      f.file_exists = true ∧ f.suffix ≠ ".json" ∧ ".yaml" = f.suffix) :=
  ⟨load_config_missing_file.2.1 ⟨false, ".yaml", .ok (.obj [])⟩ rfl,
   load_config_missing_file.2.2 (some ⟨true, ".yaml", .ok (.obj [])⟩) ".yaml" rfl⟩

/-! ## User configuration (setup.py `load_user_config`, lines 210-236) -/

/-- The three console output modes (`OutputMode`, lines 23-26). -/
inductive OutputMode where
  | minimal
  | normal
  | verbose
deriving DecidableEq

/-- `OutputMode(mode)` (line 228): the enum constructor succeeds on
the three value strings and raises `ValueError` otherwise. -/
def parse_output_mode : JValue → Option OutputMode
  | .str "minimal" => some .minimal
  | .str "normal" => some .normal
  | .str "verbose" => some .verbose
  | _ => none

/-- The fields of the global `Config` dataclass (lines 29-42) that
`load_user_config` fills in.  The user fields hold the raw JSON
values `user_data.get(...)` returns (defaulting to the empty
string). -/
structure Config where
  user_name : JValue
  user_email : JValue
  author_url : JValue
  output_mode : OutputMode
  show_time_remaining : Bool
  notifications_enabled : Bool

/-- The ways `load_user_config` can fail to produce a `Config`: the
explicit `sys.exit(1)` when the `user` key is missing (lines
221-223), or the `ValueError` that `OutputMode(mode)` raises on an
unrecognised mode (line 228) and that propagates out of `main` to
the `__main__` guard. -/
inductive StartupError where
  | missing_user
  | invalid_output_mode
deriving DecidableEq

/-- `load_user_config(config_data)` (lines 210-236).  The `user` key
is only tested for presence; `name`, `email` and `author_url` default
to the empty string and are never validated.  The `output` and
`notifications` sections are optional with the defaults of the
`Config` dataclass. -/
def load_user_config (config_data : JValue) : Except StartupError Config :=
  match jget config_data "user" with
  | none => .error .missing_user
  | some user_data =>
    let base : Config :=
      { user_name := py_get user_data "name" (.str "")
        user_email := py_get user_data "email" (.str "")
        author_url := py_get user_data "author_url" (.str "")
        output_mode := .normal
        show_time_remaining := true
        notifications_enabled :=
          match jget config_data "notifications" with
          | some n => truthy (py_get n "enabled" (.bool true))
          | none => true }
    match jget config_data "output" with
    | none => .ok base
    | some out =>
      match parse_output_mode (py_get out "mode" (.str "normal")) with
      | none => .error .invalid_output_mode
      | some m =>
        .ok { base with
                output_mode := m
                show_time_remaining := truthy (py_get out "show_time_remaining" (.bool true)) }

/-! ## Step registry (setup.py `main`, lines 896-926) -/

/-- `config_data.get('macos', \x7b\x7d).get('configure', True)` (line 898). -/
def macos_enabled (cfg : JValue) : Bool :=
  truthy (py_get (py_get cfg "macos" (.obj [])) "configure" (.bool true))

/-- `config_data.get('packages', \x7b\x7d).get('homebrew', \x7b\x7d).get('install', True)` (line 901). -/
def homebrew_enabled (cfg : JValue) : Bool :=
  truthy (py_get (py_get (py_get cfg "packages" (.obj [])) "homebrew" (.obj []))
    "install" (.bool true))

/-- `config_data.get('ssh', \x7b\x7d).get('generate_key', True)` (line 904). -/
def ssh_key_enabled (cfg : JValue) : Bool :=
  truthy (py_get (py_get cfg "ssh" (.obj [])) "generate_key" (.bool true))

/-- `config_data.get('git', \x7b\x7d).get('configure', True)` (line 907). -/
def git_enabled (cfg : JValue) : Bool :=
  truthy (py_get (py_get cfg "git" (.obj [])) "configure" (.bool true))

/-- `config_data.get('development', \x7b\x7d).get('rust', \x7b\x7d).get('install', True)` (line 910). -/
def rust_enabled (cfg : JValue) : Bool :=
  truthy (py_get (py_get (py_get cfg "development" (.obj [])) "rust" (.obj []))
    "install" (.bool true))

/-- `config_data.get('development', \x7b\x7d).get('node', \x7b\x7d).get('install', True)` (line 913). -/
def node_enabled (cfg : JValue) : Bool :=
  truthy (py_get (py_get (py_get cfg "development" (.obj [])) "node" (.obj []))
    "install" (.bool true))

/-- `config_data.get('shell', \x7b\x7d).get('oh_my_zsh', \x7b\x7d).get('install', True)` (line 916). -/
def omz_enabled (cfg : JValue) : Bool :=
  truthy (py_get (py_get (py_get cfg "shell" (.obj [])) "oh_my_zsh" (.obj []))
    "install" (.bool true))

/-- `config_data.get('shell', \x7b\x7d).get('starship', \x7b\x7d).get('install', True)` (line 919). -/
def starship_enabled (cfg : JValue) : Bool :=
  truthy (py_get (py_get (py_get cfg "shell" (.obj [])) "starship" (.obj []))
    "install" (.bool true))

/-- `if config_data.get('packages', \x7b\x7d):` (line 922) — Python
truthiness of the whole `packages` section, not an enable toggle. -/
def packages_nonempty (cfg : JValue) : Bool :=
  truthy (py_get cfg "packages" (.obj []))

/-- The step names appended by `main` (lines 896-926), in program
order; PATH configuration is appended unconditionally last. -/
def build_steps (cfg : JValue) : List String :=
  (if macos_enabled cfg then ["Configure macOS"] else []) ++
  (if homebrew_enabled cfg then ["Install/Update Homebrew"] else []) ++
  (if ssh_key_enabled cfg then ["Generate SSH Key"] else []) ++
  (if git_enabled cfg then ["Configure Git"] else []) ++
  (if rust_enabled cfg then ["Install Rust"] else []) ++
  (if node_enabled cfg then ["Install Node.js"] else []) ++
  (if omz_enabled cfg then ["Install Oh My Zsh"] else []) ++
  (if starship_enabled cfg then ["Install Starship"] else []) ++
  (if packages_nonempty cfg then ["Install Brew Packages"] else []) ++
  ["Configure Shell PATHs"]

/-- The fixed overall step order of the specification. -/
def step_names_order : List String :=
  ["Configure macOS", "Install/Update Homebrew", "Generate SSH Key", "Configure Git",
   "Install Rust", "Install Node.js", "Install Oh My Zsh", "Install Starship",
   "Install Brew Packages", "Configure Shell PATHs"]

/-- Whether a given step name is included for a configuration: its
toggle for the toggled steps, the non-emptiness of the `packages`
section for the package batch, always for PATH configuration. -/
def step_enabled (cfg : JValue) (name : String) : Bool :=
  if name == "Configure macOS" then macos_enabled cfg
  else if name == "Install/Update Homebrew" then homebrew_enabled cfg
  else if name == "Generate SSH Key" then ssh_key_enabled cfg
  else if name == "Configure Git" then git_enabled cfg
  else if name == "Install Rust" then rust_enabled cfg
  else if name == "Install Node.js" then node_enabled cfg
  else if name == "Install Oh My Zsh" then omz_enabled cfg
  else if name == "Install Starship" then starship_enabled cfg
  else if name == "Install Brew Packages" then packages_nonempty cfg
  else if name == "Configure Shell PATHs" then true
  else false

theorem se_macos (cfg : JValue) : step_enabled cfg "Configure macOS" = macos_enabled cfg := rfl

theorem se_homebrew (cfg : JValue) :
    step_enabled cfg "Install/Update Homebrew" = homebrew_enabled cfg := rfl

theorem se_ssh (cfg : JValue) : step_enabled cfg "Generate SSH Key" = ssh_key_enabled cfg := rfl

theorem se_git (cfg : JValue) : step_enabled cfg "Configure Git" = git_enabled cfg := rfl

theorem se_rust (cfg : JValue) : step_enabled cfg "Install Rust" = rust_enabled cfg := rfl

theorem se_node (cfg : JValue) : step_enabled cfg "Install Node.js" = node_enabled cfg := rfl

theorem se_omz (cfg : JValue) : step_enabled cfg "Install Oh My Zsh" = omz_enabled cfg := rfl

theorem se_starship (cfg : JValue) :
    step_enabled cfg "Install Starship" = starship_enabled cfg := rfl

theorem se_packages (cfg : JValue) :
    step_enabled cfg "Install Brew Packages" = packages_nonempty cfg := rfl

theorem se_paths (cfg : JValue) : step_enabled cfg "Configure Shell PATHs" = true := rfl

theorem cond_singleton_append (b : Bool) (x : String) (l : List String) :
    (if b then [x] else []) ++ l = if b then x :: l else l := by
  cases b <;> simp

theorem filter_cons_append (p : String → Bool) (a : String) (l : List String) :
    List.filter p (a :: l) = (if p a then [a] else []) ++ List.filter p l := by
  rw [List.filter_cons, cond_singleton_append]

/-- C8 (amended): the step list always follows the fixed order
(macOS preferences, Homebrew, SSH key, Git, Rust, Node.js,
Oh My Zsh, Starship, package batch, shell PATHs) — it is the fixed
name sequence filtered by each step's inclusion condition — and the
PATH-reconciliation step is always present and always last.  The
eight toggled steps default to enabled when their toggle is absent,
while the package-batch step is included exactly when the `packages`
section is present and non-empty. -/
theorem build_steps_fixed_order (cfg : JValue) :
    build_steps cfg = step_names_order.filter (step_enabled cfg) ∧
    (build_steps cfg).getLast? = some "Configure Shell PATHs" ∧
    "Configure Shell PATHs" ∈ build_steps cfg := by
  refine ⟨?_, ?_, ?_⟩
  · simp only [step_names_order, filter_cons_append, List.filter_nil, se_macos, se_homebrew,
      se_ssh, se_git, se_rust, se_node, se_omz, se_starship, se_packages, se_paths,
      build_steps, List.append_assoc, List.append_nil, eq_self_iff_true, if_true]
  · simp only [build_steps, ← List.append_assoc]
    rw [List.getLast?_append_cons]
    rfl
  · simp only [build_steps, ← List.append_assoc]
    exact List.mem_append_right _ (by simp)

/-- C8 counterexample: for the empty configuration every toggle is
absent, yet the resulting step list omits `"Install Brew Packages"`
(the package batch is gated on the `packages` section being present
and non-empty, not on a default-enabled toggle), refuting the claim
that every toggle defaults to enabled when absent. -/
theorem empty_config_omits_brew_packages_step :
    build_steps (.obj []) =
      ["Configure macOS", "Install/Update Homebrew", "Generate SSH Key", "Configure Git",
       "Install Rust", "Install Node.js", "Install Oh My Zsh", "Install Starship",
       "Configure Shell PATHs"] ∧
    ¬ ("Install Brew Packages" ∈ build_steps (.obj [])) := by
  refine ⟨rfl, ?_⟩
  decide

/-! ## Startup sequencing (setup.py `main`, lines 856-877) -/

/-- Observable effects of the startup phase of `main`: the process
exit code (when the run terminates during startup), whether
`setup_logging` ran (it creates the log directory and both log
files, lines 47-50), and how many steps the loop then attempts. -/
structure StartupTrace where
  exit_code : Option Nat
  log_dir_created : Bool
  steps_attempted : Nat

/-- The startup order of `main`: `load_user_config` runs (line 867)
before `setup_logging` (line 877) and before the step list is built
and executed (lines 896-973).  `sys.exit(1)` on a missing `user`
section and the `ValueError` from an invalid output mode (reaching
the `__main__` guard) both terminate with exit code 1 before the log
directory is created and before any step runs. -/
def startup (cfg : JValue) : StartupTrace :=
  match load_user_config cfg with
  | .error .missing_user =>
      { exit_code := some 1, log_dir_created := false, steps_attempted := 0 }
  | .error .invalid_output_mode =>
      { exit_code := some 1, log_dir_created := false, steps_attempted := 0 }
  | .ok _ =>
      { exit_code := none, log_dir_created := true,
        steps_attempted := (build_steps cfg).length }

/-- C5 counterexample: a configuration whose `user` section is
present but has empty name and email passes the startup check —
`load_user_config` returns a `Config` with empty identity fields and
the run proceeds (no exit code) — refuting the claim that name and
email must be non-empty for startup to proceed. -/
theorem empty_identity_startup_proceeds :
    load_user_config (.obj [("user", .obj [])]) =
      .ok { user_name := .str "", user_email := .str "", author_url := .str "",
            output_mode := .normal, show_time_remaining := true,
            notifications_enabled := true } ∧
    (startup (.obj [("user", .obj [])])).exit_code = none := ⟨rfl, rfl⟩

/-- C5 (amended): when the `user` section is absent the process
terminates with exit code 1 before any step runs and before the log
directory or log files are created; when the `user` key is present
the identity check passes regardless of the name and email values —
their non-emptiness is never validated. -/
theorem missing_user_exits_before_logging (cfg : JValue) :
    (jget cfg "user" = none →
      startup cfg = { exit_code := some 1, log_dir_created := false, steps_attempted := 0 }) ∧
    (∀ u : JValue, jget cfg "user" = some u →
      load_user_config cfg ≠ .error .missing_user) := by
  constructor
  · intro h
    have hl : load_user_config cfg = .error .missing_user := by
      unfold load_user_config
      rw [h]
    unfold startup
    rw [hl]
  · intro u h
    unfold load_user_config
    rw [h]
    cases ho : jget cfg "output" with
    | none => simp
    | some out =>
      cases hm : parse_output_mode (py_get out "mode" (.str "normal")) with
      | none => simp [hm]
      | some m => simp [hm]

/-- Witness for C5 (amended) at concrete inputs: the empty
configuration has no `user` key and exits 1 with no logging and no
steps; a configuration with a `user` section passes the identity
check. -/
theorem missing_user_exits_before_logging_witness :
    startup (.obj []) =
      { exit_code := some 1, log_dir_created := false, steps_attempted := 0 } ∧
    load_user_config (.obj [("user", .obj [("name", .str "Ann")])]) ≠
      .error .missing_user :=
  ⟨(missing_user_exits_before_logging (.obj [])).1 rfl,
   (missing_user_exits_before_logging (.obj [("user", .obj [("name", .str "Ann")])])).2
     (.obj [("name", .str "Ann")]) rfl⟩

/-! ## Dry-run mode (setup.py `main`, lines 928-958) -/

/-- Observable effects of `main` invoked with `--dry-run`: the step
names printed by the dry-run listing (lines 954-956), how many step
actions were invoked, which external commands were dispatched, and
the process exit code. -/
structure DryRunTrace where
  printed_steps : List String
  step_actions_invoked : Nat
  external_commands : List String
  exit_code : Nat

/-- `main` with `args.dry_run = True` after a successful
`load_user_config`: the start notification fires first when
notifications are enabled (`Notifier.send` runs the external
`osascript` command, lines 928-930 and 145), then the step list is
printed and `main` returns before the execution loop (lines
953-958), so no step action runs and the `__main__` guard exits 0.
`args.no_notifications` overrides the configuration (line 872).
`none` when startup already failed before the dry-run branch. -/
def main_dry_run (cfg : JValue) (no_notifications : Bool) : Option DryRunTrace :=
  match load_user_config cfg with
  | .error _ => none
  | .ok c =>
    let notif := if no_notifications then false else c.notifications_enabled
    some { printed_steps := build_steps cfg
           step_actions_invoked := 0
           external_commands := if notif then ["osascript"] else []
           exit_code := 0 }

/-- C7 counterexample: a valid configuration (a `user` section,
notifications left at their default of enabled) run in dry-run mode
still dispatches one external command — the start-notification
`osascript` fires before the dry-run branch — refuting "executes
zero external commands". -/
theorem dry_run_sends_notification_command :
    main_dry_run (.obj [("user", .obj [])]) false =
      some { printed_steps :=
               ["Configure macOS", "Install/Update Homebrew", "Generate SSH Key",
                "Configure Git", "Install Rust", "Install Node.js", "Install Oh My Zsh",
                "Install Starship", "Configure Shell PATHs"],
             step_actions_invoked := 0,
             external_commands := ["osascript"],
             exit_code := 0 } ∧
    (["osascript"] : List String) ≠ [] := ⟨rfl, by decide⟩

/-- C7 (amended): for every configuration that passes startup,
dry-run prints the full ordered step-name listing, invokes zero step
actions, and exits 0; the only external command it may dispatch is
the advisory start-notification `osascript`, which runs exactly when
notifications are enabled and not disabled on the command line. -/
theorem dry_run_behavior (cfg : JValue) (no_notifications : Bool) (c : Config)
    (h : load_user_config cfg = .ok c) :
    ∃ t : DryRunTrace, main_dry_run cfg no_notifications = some t ∧
      t.printed_steps = build_steps cfg ∧
      t.step_actions_invoked = 0 ∧
      t.exit_code = 0 ∧
      t.external_commands =
        (if (if no_notifications then false else c.notifications_enabled) then
          ["osascript"] else ([] : List String)) := by
  unfold main_dry_run
  rw [h]
  exact ⟨_, rfl, rfl, rfl, rfl, rfl⟩

/-- Witness for C7 (amended) at a concrete input: with notifications
disabled on the command line, the dry-run trace lists the steps,
invokes no action, runs no external command and exits 0. -/
theorem dry_run_behavior_witness :
    ∃ t : DryRunTrace, main_dry_run (.obj [("user", .obj [])]) true = some t ∧
      t.printed_steps = build_steps (.obj [("user", .obj [])]) ∧
      t.step_actions_invoked = 0 ∧
      t.exit_code = 0 ∧
      t.external_commands = ([] : List String) :=
  dry_run_behavior (.obj [("user", .obj [])]) true
    { user_name := .str "", user_email := .str "", author_url := .str "",
      output_mode := .normal, show_time_remaining := true,
      notifications_enabled := true } rfl

/-! ## Idempotent text appends

`configure_shell_paths` (setup.py lines 669-741) and the SSH config
update inside `generate_ssh_key` (lines 423-443).  Both are embedded
as functions from the current file content (plus the filesystem
facts the code consults) to the new file content. -/

/-- The filesystem facts `configure_shell_paths` consults besides the
shell rc content: the machine architecture (`os.uname().machine ==
'arm64'`), the home directory, whether the rc file found was
`.zshrc` (`'zsh' in str(shell_rc)`, line 720), and the existence
checks of lines 692, 698, 703, 719, 721, 728 and 731.
`fzf_shell_exists_after_install` is the re-check of line 731 after
the fzf install script has run. -/
structure ShellFs where
  is_arm : Bool
  home : String
  shell_rc_is_zsh : Bool
  brew_binary_exists : Bool
  cargo_bin_exists : Bool
  nvm_dir_exists : Bool
  fzf_installed : Bool
  fzf_shell_exists : Bool
  fzf_install_script_exists : Bool
  fzf_shell_exists_after_install : Bool

/-- `brew_prefix` (lines 687-690). -/
def shell_brew_prefix (is_arm : Bool) : String :=
  if is_arm then "/opt/homebrew" else "/usr/local"

/-- The Homebrew addition text (line 694). -/
def brew_addition (is_arm : Bool) : String :=
  "\n# Homebrew\neval \"$(" ++ shell_brew_prefix is_arm ++ "/bin/brew shellenv)\""

/-- The Homebrew guard (lines 686-692): marker `'brew shellenv'`
absent from the content and the brew binary present. -/
def brew_cond (fs : ShellFs) (content : String) : Bool :=
  !(strIn "brew shellenv" content) && fs.brew_binary_exists

/-- The Cargo addition text (line 700). -/
def cargo_addition : String :=
  "\n# Rust/Cargo\nexport PATH=\"$HOME/.cargo/bin:$PATH\""

/-- The Cargo guard (line 698): `~/.cargo/bin` present and marker
`'.cargo/bin'` absent from the content. -/
def cargo_cond (fs : ShellFs) (content : String) : Bool :=
  fs.cargo_bin_exists && !(strIn ".cargo/bin" content)

/-- `nvm_source` (lines 706-709). -/
def nvm_source (is_arm : Bool) : String :=
  if is_arm then "/opt/homebrew/opt/nvm" else "/usr/local/opt/nvm"

/-- The NVM addition text (lines 711-715). -/
def nvm_addition (is_arm : Bool) : String :=
  "\n# NVM (Node Version Manager)\nexport NVM_DIR=\"$HOME/.nvm\"\n[ -s \"" ++
    nvm_source is_arm ++ "/nvm.sh\" ] && . \"" ++ nvm_source is_arm ++
    "/nvm.sh\"\n[ -s \"" ++ nvm_source is_arm ++
    "/etc/bash_completion.d/nvm\" ] && . \"" ++ nvm_source is_arm ++
    "/etc/bash_completion.d/nvm\""

/-- The NVM guard (lines 703-704): `~/.nvm` present and marker
`'NVM_DIR'` absent from the content. -/
def nvm_cond (fs : ShellFs) (content : String) : Bool :=
  fs.nvm_dir_exists && !(strIn "NVM_DIR" content)

/-- `fzf_shell` (line 720). -/
def fzf_shell_path (fs : ShellFs) : String :=
  fs.home ++ (if fs.shell_rc_is_zsh then "/.fzf.zsh" else "/.fzf.bash")

/-- The FZF addition text (line 732). -/
def fzf_addition (fs : ShellFs) : String :=
  "\n# FZF\n[ -f " ++ fzf_shell_path fs ++ " ] && source " ++ fzf_shell_path fs

/-- The FZF guard (lines 719-731): fzf installed, its shell
integration file absent, marker `'fzf'` absent from the content, the
install script present, and the integration file present after the
script has run. -/
def fzf_cond (fs : ShellFs) (content : String) : Bool :=
  fs.fzf_installed && (!fs.fzf_shell_exists && !(strIn "fzf" content)) &&
    fs.fzf_install_script_exists && fs.fzf_shell_exists_after_install

/-- Python's `'\n'.join`. -/
def joinNL : List String → String
  | [] => ""
  | [a] => a
  | a :: b :: rest => a ++ "\n" ++ joinNL (b :: rest)

/-- The `additions` list collected by `configure_shell_paths`
(lines 683-732), in program order. -/
def shell_additions (fs : ShellFs) (content : String) : List String :=
  (if brew_cond fs content then [brew_addition fs.is_arm] else []) ++
  (if cargo_cond fs content then [cargo_addition] else []) ++
  (if nvm_cond fs content then [nvm_addition fs.is_arm] else []) ++
  (if fzf_cond fs content then [fzf_addition fs] else [])

/-- `configure_shell_paths` as a transformation of the shell rc
content (lines 681-741): if any additions were collected, append
`'\n' + '\n'.join(additions)` to the file (lines 735-738); otherwise
leave the file untouched. -/
def configure_shell_paths (fs : ShellFs) (content : String) : String :=
  if (shell_additions fs content).isEmpty then content
  else content ++ "\n" ++ joinNL (shell_additions fs content)

/-- The SSH config block written for GitHub (lines 427-432). -/
def ssh_config_block (key_path : String) : String :=
  "\nHost github.com\n    AddKeysToAgent yes\n    UseKeychain yes\n    IdentityFile " ++
    key_path ++ "\n"

/-- The SSH client config update of `generate_ssh_key` (lines
434-440): create the file with the block when it does not exist,
append the block only when `'Host github.com'` is not already
present. -/
def update_ssh_config (existing : Option String) (key_path : String) : String :=
  match existing with
  | some existing_content =>
    if strIn "Host github.com" existing_content then existing_content
    else existing_content ++ ssh_config_block key_path
  | none => ssh_config_block key_path

theorem strIn_joinNL_head (m a : String) (rest : List String) (h : strIn m a = true) :
    strIn m (joinNL (a :: rest)) = true := by
  cases rest with
  | nil => exact h
  | cons b t =>
    show strIn m (a ++ "\n" ++ joinNL (b :: t)) = true
    exact strIn_append_left _ _ _ (strIn_append_left _ _ _ h)

theorem strIn_joinNL (m : String) (l : List String) (a : String) (ha : a ∈ l)
    (h : strIn m a = true) : strIn m (joinNL l) = true := by
  induction l with
  | nil => cases ha
  | cons b t ih =>
    rcases List.mem_cons.mp ha with rfl | hmem
    · exact strIn_joinNL_head m a t h
    · cases t with
      | nil => cases hmem
      | cons c t2 =>
        show strIn m (b ++ "\n" ++ joinNL (c :: t2)) = true
        exact strIn_append_right _ _ _ (ih hmem)

theorem csp_preserves (fs : ShellFs) (content m : String) (h : strIn m content = true) :
    strIn m (configure_shell_paths fs content) = true := by
  unfold configure_shell_paths
  split
  · exact h
  · exact strIn_append_left _ _ _ (strIn_append_left _ _ _ h)

theorem csp_marker_of_addition (fs : ShellFs) (content m a : String)
    (ha : a ∈ shell_additions fs content) (hm : strIn m a = true) :
    strIn m (configure_shell_paths fs content) = true := by
  unfold configure_shell_paths
  split
  · next hemp =>
    rw [List.isEmpty_iff] at hemp
    rw [hemp] at ha
    cases ha
  · exact strIn_append_right _ _ _ (strIn_joinNL m _ a ha hm)

theorem brew_marker_in_addition (is_arm : Bool) :
    strIn "brew shellenv" (brew_addition is_arm) = true := by
  cases is_arm <;> decide

theorem cargo_marker_in_addition : strIn ".cargo/bin" cargo_addition = true := by
  decide

theorem nvm_marker_in_addition (is_arm : Bool) :
    strIn "NVM_DIR" (nvm_addition is_arm) = true := by
  cases is_arm <;> decide

theorem fzf_marker_in_path (fs : ShellFs) : strIn "fzf" (fzf_shell_path fs) = true := by
  unfold fzf_shell_path
  cases fs.shell_rc_is_zsh
  · exact strIn_append_right _ _ _ (by decide)
  · exact strIn_append_right _ _ _ (by decide)

theorem fzf_marker_in_addition (fs : ShellFs) : strIn "fzf" (fzf_addition fs) = true := by
  unfold fzf_addition
  exact strIn_append_right _ _ _ (fzf_marker_in_path fs)

theorem csp_marker_of_brew (fs : ShellFs) (content : String)
    (h : brew_cond fs content = true) :
    strIn "brew shellenv" (configure_shell_paths fs content) = true :=
  csp_marker_of_addition fs content _ (brew_addition fs.is_arm)
    (by simp [shell_additions, h]) (brew_marker_in_addition fs.is_arm)

theorem csp_marker_of_cargo (fs : ShellFs) (content : String)
    (h : cargo_cond fs content = true) :
    strIn ".cargo/bin" (configure_shell_paths fs content) = true :=
  csp_marker_of_addition fs content _ cargo_addition
    (by simp [shell_additions, h]) cargo_marker_in_addition

theorem csp_marker_of_nvm (fs : ShellFs) (content : String)
    (h : nvm_cond fs content = true) :
    strIn "NVM_DIR" (configure_shell_paths fs content) = true :=
  csp_marker_of_addition fs content _ (nvm_addition fs.is_arm)
    (by simp [shell_additions, h]) (nvm_marker_in_addition fs.is_arm)

theorem csp_marker_of_fzf (fs : ShellFs) (content : String)
    (h : fzf_cond fs content = true) :
    strIn "fzf" (configure_shell_paths fs content) = true :=
  csp_marker_of_addition fs content _ (fzf_addition fs)
    (by simp [shell_additions, h]) (fzf_marker_in_addition fs)

theorem brew_cond_after (fs : ShellFs) (content : String) :
    brew_cond fs (configure_shell_paths fs content) = false := by
  cases hb : brew_cond fs content with
  | true =>
    have hm := csp_marker_of_brew fs content hb
    unfold brew_cond
    rw [hm]
    rfl
  | false =>
    unfold brew_cond at hb ⊢
    cases hs : strIn "brew shellenv" content with
    | true =>
      rw [csp_preserves fs content _ hs]
      rfl
    | false =>
      rw [hs] at hb
      simp only [Bool.not_false, Bool.true_and] at hb
      rw [hb]
      simp

theorem cargo_cond_after (fs : ShellFs) (content : String) :
    cargo_cond fs (configure_shell_paths fs content) = false := by
  cases hb : cargo_cond fs content with
  | true =>
    have hm := csp_marker_of_cargo fs content hb
    unfold cargo_cond
    rw [hm]
    simp
  | false =>
    unfold cargo_cond at hb ⊢
    cases hs : strIn ".cargo/bin" content with
    | true =>
      rw [csp_preserves fs content _ hs]
      simp
    | false =>
      rw [hs] at hb
      simp only [Bool.not_false, Bool.and_true] at hb
      rw [hb]
      simp

theorem nvm_cond_after (fs : ShellFs) (content : String) :
    nvm_cond fs (configure_shell_paths fs content) = false := by
  cases hb : nvm_cond fs content with
  | true =>
    have hm := csp_marker_of_nvm fs content hb
    unfold nvm_cond
    rw [hm]
    simp
  | false =>
    unfold nvm_cond at hb ⊢
    cases hs : strIn "NVM_DIR" content with
    | true =>
      rw [csp_preserves fs content _ hs]
      simp
    | false =>
      rw [hs] at hb
      simp only [Bool.not_false, Bool.and_true] at hb
      rw [hb]
      simp

theorem fzf_cond_after (fs : ShellFs) (content : String) :
    fzf_cond fs (configure_shell_paths fs content) = false := by
  cases hb : fzf_cond fs content with
  | true =>
    have hm := csp_marker_of_fzf fs content hb
    unfold fzf_cond
    rw [hm]
    simp
  | false =>
    unfold fzf_cond at hb ⊢
    cases hs : strIn "fzf" content with
    | true =>
      rw [csp_preserves fs content _ hs]
      simp
    | false =>
      rw [hs] at hb
      cases h1 : fs.fzf_installed <;> cases h2 : fs.fzf_shell_exists <;>
        cases h3 : fs.fzf_install_script_exists <;>
        cases h4 : fs.fzf_shell_exists_after_install <;> simp_all

theorem csp_no_additions (fs : ShellFs) (content : String)
    (h1 : brew_cond fs content = false) (h2 : cargo_cond fs content = false)
    (h3 : nvm_cond fs content = false) (h4 : fzf_cond fs content = false) :
    configure_shell_paths fs content = content := by
  simp only [configure_shell_paths, shell_additions, h1, h2, h3, h4]
  simp

theorem configure_shell_paths_idem (fs : ShellFs) (content : String) :
    configure_shell_paths fs (configure_shell_paths fs content) =
      configure_shell_paths fs content :=
  csp_no_additions fs _ (brew_cond_after fs content) (cargo_cond_after fs content)
    (nvm_cond_after fs content) (fzf_cond_after fs content)

theorem marker_in_ssh_block (key_path : String) :
    strIn "Host github.com" (ssh_config_block key_path) = true := by
  unfold ssh_config_block
  exact strIn_append_left _ _ _ (strIn_append_left _ _ _ (by decide))

theorem marker_in_update_ssh (existing : Option String) (key_path : String) :
    strIn "Host github.com" (update_ssh_config existing key_path) = true := by
  cases existing with
  | none => exact marker_in_ssh_block key_path
  | some s =>
    unfold update_ssh_config
    cases hs : strIn "Host github.com" s with
    | true => simp [hs]
    | false =>
      simp only [hs, Bool.false_eq_true, if_false]
      exact strIn_append_right _ _ _ (marker_in_ssh_block key_path)

theorem update_ssh_config_marked (s key_path : String)
    (h : strIn "Host github.com" s = true) :
    update_ssh_config (some s) key_path = s := by
  unfold update_ssh_config
  simp [h]

/-- C9: both guarded text appends are idempotent.  Re-running the
PATH-reconciliation step on the content it just produced (with the
same filesystem facts) appends nothing, and re-running the SSH
config update on a file it already wrote appends nothing (even for a
different key path), because each addition contains the marker its
guard checks for. -/
theorem append_guards_idempotent :
    (∀ (fs : ShellFs) (content : String),
      configure_shell_paths fs (configure_shell_paths fs content) =
        configure_shell_paths fs content) ∧
    (∀ (existing : Option String) (key_path key_path2 : String),
      update_ssh_config (some (update_ssh_config existing key_path)) key_path2 =
        update_ssh_config existing key_path) :=
  ⟨configure_shell_paths_idem,
   fun existing key_path key_path2 =>
     update_ssh_config_marked _ key_path2 (marker_in_update_ssh existing key_path)⟩
